import Mathlib

/-!
# Corelay MVP — shallow embedding of the transaction verification core

This file embeds the business-logic core of the Corelay MVP repository:

* `database.js` — the in-memory store (`orders`, `guestCodes`) and its CRUD
  operations (`getOrdersByUser`, `updateOrderStatus`, `addGuestCode`,
  `removeGuestCode`, `validateGuestCode`);
* `corelay_logic.js` (the detailed variant shipped in the repository, the one
  with `EXPIRY_TOLERANCE_MS`, the negative-age check and the `maxTime`
  re-check) — `validateTransaction` and `_finalizeTransaction`.

Modelling conventions:

* Timestamps are `Int` milliseconds (JS `moment().valueOf()` / `Date.now()`).
  Every function that reads the clock takes the current instant `now : Int`
  as an explicit parameter.
* JS `null`-able numeric fields (`maxTime`) are `Option Int`.  A JS relational
  comparison `null < x` / `null > x` coerces `null` to `0`, embedded as
  `(·.getD 0)`.
* Mutable shared state (the mock database) is explicit state passing on a
  `Store` value.  Functions that may both mutate the store and throw return
  `Except ApiError α × Store`: mutations performed before a throw persist,
  exactly as in JS.
* Thrown `ApiError`s are the `Except.error` branch; structured results
  (`{success, message, ...}`) are `Except.ok`.
* JS `ageSeconds = (now - ts) / 1000` with the comparisons `ageSeconds > 30`
  and `ageSeconds < 0` is embedded at millisecond granularity as
  `now - ts > 30 * 1000` and `now - ts < 0`; for integer inputs below 2^53 the
  float division by 1000 cannot cross either threshold, so the comparisons
  are equivalent.
* `moment().add(14, 'days').valueOf()` is embedded as `now + 14 * 86400000`;
  ISO-string instants (`pickupTime`, `returnTime`, `updatedAt`) are embedded
  as the same millisecond instant.
-/

/-- `ApiError` from `server.js`: an error object carrying a message and an
HTTP status code. -/
structure ApiError where
  message : String
  status : Nat
deriving Repr, DecidableEq

/-- An order record from `database.js` (`mockDatabase.orders` entries).
The `products`, `pickupDeadline` and `createdAt` fields are never read by the
verification core and are omitted. -/
structure Order where
  userId : String
  orderId : String
  storeId : String
  status : String
  maxTime : Option Int
  pickupTime : Option Int := none
  returnTime : Option Int := none
  updatedAt : Option Int := none
deriving Repr, DecidableEq

/-- A guest-code record from `database.js` (`mockDatabase.guestCodes`
entries).  `validateGuestCode` returns exactly these four fields, so the same
structure doubles as its result type. -/
structure GuestCode where
  code : String
  orderId : String
  userId : String
  expiresAt : Int
deriving Repr, DecidableEq

/-- The in-memory mock database of `database.js`. -/
structure Store where
  orders : List Order
  guestCodes : List GuestCode
deriving Repr, DecidableEq

/-- JS whitespace as recognised by `String.prototype.trim` (the characters
relevant to this development; comparisons only ever test membership). -/
def isJsWhitespace (c : Char) : Bool :=
  c = ' ' ∨ c = '\t' ∨ c = '\n' ∨ c = '\r' ∨ c = '\x0b' ∨ c = '\x0c'

/-- `trim` on the character list: drop whitespace from the front, then from
the back. -/
def trimList (l : List Char) : List Char :=
  ((l.dropWhile isJsWhitespace).reverse.dropWhile isJsWhitespace).reverse

/-- JS `String.prototype.trim`. -/
def jsTrim (s : String) : String :=
  ⟨trimList s.data⟩

/-- JS `String.prototype.includes` specialised to a single character (the
only use in the source is a membership test of the character `'@'`). -/
def containsChar (s : String) (c : Char) : Bool :=
  s.data.contains c

namespace DB

/-- `DB.getOrdersByUser` (`database.js`): throws `ApiError 400` unless
`userId` is a non-empty string containing `'@'`; otherwise filters the orders
by owner.  Pure read: it never mutates the store. -/
def getOrdersByUser (userId : String) (st : Store) : Except ApiError (List Order) :=
  if userId = "" ∨ ¬ containsChar userId '@' then
    .error ⟨"Nieprawidłowy userId – musi być email", 400⟩
  else
    .ok (st.orders.filter (fun o => o.userId = userId))

/-- `DB.removeGuestCode` (`database.js`): drops every guest code bound to
`orderId`.  (The source also returns the removed count, used only for
logging.) -/
def removeGuestCode (orderId : String) (st : Store) : Store :=
  { st with guestCodes := st.guestCodes.filter (fun c => ¬ c.orderId = orderId) }

/-- The body of the `findIndex`-then-mutate idiom of `updateOrderStatus`:
apply `f` to the first list entry whose `orderId` matches, `none` when no
entry matches (`findIndex === -1`). -/
def updateFirstOrder (orderId : String) (f : Order → Order) :
    List Order → Option (List Order)
  | [] => none
  | o :: rest =>
    if o.orderId = orderId then some (f o :: rest)
    else match updateFirstOrder orderId f rest with
      | none => none
      | some rest' => some (o :: rest')

/-- The statuses accepted by `DB.updateOrderStatus`. -/
def allowedStatuses : List String :=
  ["READY_FOR_PICKUP", "PICKED_UP", "RETURN_PENDING", "RETURNED_PENDING_REFUND"]

/-- The mutation `DB.updateOrderStatus` applies to the matched order: set the
new status and `updatedAt`; on `PICKED_UP` set `pickupTime` and
`maxTime = now + 14 days`; on `RETURN_PENDING`/`RETURNED_PENDING_REFUND` set
`returnTime` and reset `maxTime` to `null`. -/
def applyStatus (newStatus : String) (now : Int) (o : Order) : Order :=
  let o := { o with status := newStatus, updatedAt := some now }
  if newStatus = "PICKED_UP" then
    { o with pickupTime := some now, maxTime := some (now + 14 * 86400000) }
  else if newStatus = "RETURN_PENDING" ∨ newStatus = "RETURNED_PENDING_REFUND" then
    { o with returnTime := some now, maxTime := none }
  else o

/-- `DB.updateOrderStatus` (`database.js`): validates `orderId` (min 3 chars)
and `newStatus`, throws 404 when the order does not exist, otherwise mutates
the first order with that id.  All throws happen before any mutation. -/
def updateOrderStatus (orderId newStatus : String) (now : Int) (st : Store) :
    Except ApiError Store :=
  if orderId = "" ∨ orderId.length < 3 then
    .error ⟨"Nieprawidłowy orderId – min 3 znaki", 400⟩
  else if ¬ newStatus ∈ allowedStatuses then
    .error ⟨"Nieprawidłowy status: " ++ newStatus, 400⟩
  else
    match updateFirstOrder orderId (applyStatus newStatus now) st.orders with
    | none => .error ⟨"Zamówienie " ++ orderId ++ " nie istnieje", 404⟩
    | some orders' => .ok { st with orders := orders' }

/-- `DB.addGuestCode` (`database.js`): validates the inputs, removes any old
code for the same `orderId` (one-per-order), then appends the new entry. -/
def addGuestCode (code orderId : String) (expiresAt : Int) (userId : String)
    (now : Int) (st : Store) : Except ApiError Store :=
  if code = "" ∨ code.length < 4 then
    .error ⟨"Nieprawidłowy code – min 4 znaki", 400⟩
  else if orderId = "" ∨ userId = "" then
    .error ⟨"Brak orderId lub userId", 400⟩
  else if expiresAt ≤ now then
    .error ⟨"Expiry musi być w przyszłości", 400⟩
  else
    let st := removeGuestCode orderId st
    .ok { st with
          guestCodes := st.guestCodes ++ [⟨code, orderId, userId, expiresAt⟩] }

/-- `DB.validateGuestCode` (`database.js`): looks up the first stored code
equal to the trimmed presented code.  Not found ⇒ throws 404; found but
expired beyond the 1000 ms tolerance ⇒ removes it and throws 400; found and
fresh ⇒ removes it and returns its data.  In either found case the
credential is consumed, so the store is returned alongside the outcome. -/
def validateGuestCode (code : String) (now : Int) (st : Store) :
    Except ApiError GuestCode × Store :=
  if code = "" then
    (.error ⟨"Nieprawidłowy code – musi być string", 400⟩, st)
  else
    match st.guestCodes.find? (fun c => c.code = jsTrim code) with
    | none => (.error ⟨"Kod gościnny nie istnieje", 404⟩, st)
    | some codeEntry =>
      if codeEntry.expiresAt < now - 1000 then
        (.error ⟨"Kod wygasł", 400⟩, removeGuestCode codeEntry.orderId st)
      else
        (.ok codeEntry, removeGuestCode codeEntry.orderId st)

end DB

namespace CorelayLogic

/-- `OTP_VALIDITY_SECONDS` (`corelay_logic.js`). -/
def OTP_VALIDITY_SECONDS : Int := 30

/-- `GUEST_CODE_VALIDITY_MINUTES` (`corelay_logic.js`). -/
def GUEST_CODE_VALIDITY_MINUTES : Int := 60

/-- `EXPIRY_TOLERANCE_MS` (`corelay_logic.js`). -/
def EXPIRY_TOLERANCE_MS : Int := 1000

/-- `VALID_SCANNERS` (`corelay_logic.js`). -/
def VALID_SCANNERS : List String := ["MODIVO", "LPP", "INPOST"]

/-- The structured result object built by `validateTransaction` /
`_finalizeTransaction`.  Failure results carry only `success` and `message`;
the success result additionally carries the transaction type and the
response metadata, so those fields are `Option`s defaulting to `none`. -/
structure VResult where
  success : Bool
  transactionType : Option String := none
  message : String
  orderId : Option String := none
  userId : Option String := none
  ttype : Option String := none
  scanner : Option String := none
deriving Repr, DecidableEq

/-- `_finalizeTransaction` (`corelay_logic.js`).  From `READY_FOR_PICKUP`
advance to `PICKED_UP` (type `PICKUP`); from `PICKED_UP` first re-check
`maxTime` (`order.maxTime < now` ⇒ structured failure, no mutation), then
advance to `RETURNED_PENDING_REFUND` (type `RETURN`); any other status is a
structured "unknown status" failure.  A `DB.updateOrderStatus` throw is
caught and rethrown as a 500.  (The source's extra aliased assignments
`order.maxTime = ...`, `order.pickupTime = ...`, `order.returnTime = ...`
re-write the very values `updateOrderStatus` already stored on the shared
order object, so they do not change the store.) -/
def finalizeTransaction (order : Order) (scannerStoreId ttype : String)
    (now : Int) (st : Store) : Except ApiError VResult × Store :=
  if order.status = "READY_FOR_PICKUP" then
    match DB.updateOrderStatus order.orderId "PICKED_UP" now st with
    | .error _ =>
      (.error ⟨"Błąd aktualizacji statusu w bazie – transakcja nie zapisana", 500⟩, st)
    | .ok st' =>
      (.ok { success := true
             transactionType := some "PICKUP"
             message := "Paczka ODEBRANA w " ++ scannerStoreId ++
               ". Status: PICKED_UP. Okno zwrotu: 14 dni od teraz."
             orderId := some order.orderId
             userId := some order.userId
             ttype := some ttype
             scanner := some scannerStoreId }, st')
  else if order.status = "PICKED_UP" then
    if order.maxTime.getD 0 < now then
      (.ok { success := false
             message := "Okno zwrotu (14 dni) wygasło – sprawdź datę odbioru." }, st)
    else
      match DB.updateOrderStatus order.orderId "RETURNED_PENDING_REFUND" now st with
      | .error _ =>
        (.error ⟨"Błąd aktualizacji statusu w bazie – transakcja nie zapisana", 500⟩, st)
      | .ok st' =>
        (.ok { success := true
               transactionType := some "RETURN"
               message := "ZWROT przyjęty w " ++ scannerStoreId ++
                 ". Status: RETURNED_PENDING_REFUND. Proces refundu (np. via TPay) zainicjowany."
               orderId := some order.orderId
               userId := some order.userId
               ttype := some ttype
               scanner := some scannerStoreId }, st')
  else
    (.ok { success := false
           message := "Nieznany status zamówienia: " ++ order.status }, st)

/-- The guest-code branch of `validateTransaction` (KROK 1).  The whole
branch is wrapped in `try/catch`, so every `ApiError` thrown inside —
including the 404/400 from `DB.validateGuestCode` and any throw escaping
`_finalizeTransaction` — is caught and rethrown as the fixed 500 error.
Mutations performed before a throw persist.  (The source's
`if (!guestCodeData)` null-check is unreachable: `DB.validateGuestCode`
throws instead of returning `null`.) -/
def guestBranch (scannedGuestCode scannerStoreId : String) (now : Int)
    (st : Store) : Except ApiError VResult × Store :=
  match DB.validateGuestCode (jsTrim scannedGuestCode) now st with
  | (.error _, st') =>
    (.error ⟨"Błąd walidacji guest code – spróbuj ponownie", 500⟩, st')
  | (.ok guestCodeData, st') =>
    if guestCodeData.expiresAt < now - EXPIRY_TOLERANCE_MS then
      (.ok { success := false
             message := "Kod gościnny wygasł. Wygeneruj nowy." }, st')
    else
      match DB.getOrdersByUser guestCodeData.userId st' with
      | .error _ =>
        (.error ⟨"Błąd walidacji guest code – spróbuj ponownie", 500⟩, st')
      | .ok orders =>
        match orders.find? (fun o => o.orderId = guestCodeData.orderId) with
        | none =>
          (.ok { success := false
                 message := "Zamówienie powiązane z kodem nie istnieje." }, st')
        | some order =>
          match finalizeTransaction order scannerStoreId "GUEST_PIN" now st' with
          | (.error _, st'') =>
            (.error ⟨"Błąd walidacji guest code – spróbuj ponownie", 500⟩, st'')
          | (.ok r, st'') => (.ok r, st'')

/-- The matching predicate of KROK 3 (`userOrders.find(...)`): pickup needs
status `READY_FOR_PICKUP` at the scanning store; return needs `PICKED_UP`
with `maxTime > now` at any store. -/
def orderMatches (scannerStoreId : String) (now : Int) (order : Order) : Bool :=
  (order.status = "READY_FOR_PICKUP" ∧ order.storeId = scannerStoreId) ∨
  (order.status = "PICKED_UP" ∧ order.maxTime.getD 0 > now)

/-- The dynamic-code branch of `validateTransaction` (KROK 2–4): freshness
checks on `age = now - tsMs` (stale beyond 30 s, or negative), then order
lookup — whose `ApiError` is NOT caught here — empty-list check, first-match
selection and finalization. -/
def dynamicBranch (scannedUserId : String) (tsMs : Int) (scannerStoreId : String)
    (now : Int) (st : Store) : Except ApiError VResult × Store :=
  if now - tsMs > OTP_VALIDITY_SECONDS * 1000 then
    (.ok { success := false
           message := "Dynamiczny kod wygasł. Użyto zrzutu ekranu lub jest za stary. Poproś o odświeżenie w aplikacji." }, st)
  else if now - tsMs < 0 then
    (.ok { success := false
           message := "Nieprawidłowy timestamp – w przyszłości?" }, st)
  else
    match DB.getOrdersByUser scannedUserId st with
    | .error e => (.error e, st)
    | .ok userOrders =>
      if userOrders.isEmpty then
        (.ok { success := false
               message := "Brak zamówień dla użytkownika – sprawdź email." }, st)
      else
        match userOrders.find? (fun o => orderMatches scannerStoreId now o) with
        | none =>
          (.ok { success := false
                 message := "Brak pasującego zamówienia: Nie ma paczki DO ODBIORU w " ++
                   scannerStoreId ++ " lub brak aktywnych zwrotów (sprawdź status w aplikacji)." }, st)
        | some matchingOrder =>
          finalizeTransaction matchingOrder scannerStoreId "DYNAMIC_CODE" now st

/-- `validateTransaction` (`corelay_logic.js`): input validation throws
(empty `scannedUserId`, falsy timestamp — JS `!scannedTimestamp`, i.e. `0` —,
scanner not in `VALID_SCANNERS`), then the guest branch when a guest code is
present and non-blank (`scannedGuestCode && scannedGuestCode.trim()`),
otherwise the dynamic branch. -/
def validateTransaction (scannedUserId : String) (scannedTimestamp : Int)
    (scannerStoreId : String) (scannedGuestCode : Option String) (now : Int)
    (st : Store) : Except ApiError VResult × Store :=
  if scannedUserId = "" then
    (.error ⟨"Brak lub nieprawidłowy scannedUserId", 400⟩, st)
  else if scannedTimestamp = 0 then
    (.error ⟨"Brak scannedTimestamp – wymagany dla dynamic code", 400⟩, st)
  else if ¬ scannerStoreId ∈ VALID_SCANNERS then
    (.error ⟨"Nieprawidłowy scannerStoreId: " ++ scannerStoreId ++
      " – musi być MODIVO, LPP, INPOST", 400⟩, st)
  else
    match scannedGuestCode with
    | some gc =>
      if gc = "" ∨ jsTrim gc = "" then
        dynamicBranch scannedUserId scannedTimestamp scannerStoreId now st
      else
        guestBranch gc scannerStoreId now st
    | none => dynamicBranch scannedUserId scannedTimestamp scannerStoreId now st

end CorelayLogic

/-- The one-credential-per-order store invariant: all stored guest codes are
bound to pairwise distinct `orderId`s. -/
def oneCodePerOrder (l : List GuestCode) : Prop :=
  l.Pairwise (fun a b => a.orderId ≠ b.orderId)

instance (l : List GuestCode) : Decidable (oneCodePerOrder l) := by
  unfold oneCodePerOrder; infer_instance

/-! ## Test fixtures (concrete sample data in the style of the seed data of
`database.js`, used by the witness theorems) -/

/-- A sample order: `ORD-1001`, ready for pickup at `MODIVO`. -/
def order1001 : Order :=
  { userId := "wojtek@corelay.pl", orderId := "ORD-1001", storeId := "MODIVO"
    status := "READY_FOR_PICKUP", maxTime := none }

/-- A sample order: `ORD-1002`, picked up from `LPP`, return window open
until instant `1123200000`. -/
def order1002 : Order :=
  { userId := "wojtek@corelay.pl", orderId := "ORD-1002", storeId := "LPP"
    status := "PICKED_UP", maxTime := some 1123200000 }

/-- A sample guest credential for `ORD-1002`. -/
def guest1002 : GuestCode :=
  { code := "123456", orderId := "ORD-1002", userId := "wojtek@corelay.pl"
    expiresAt := 3600000 }

/-! ## Helper lemmas -/

theorem find_eq_some_of_unique {α} (p : α → Bool) {l : List α} {a : α}
    (ha : a ∈ l) (hpa : p a = true) (huniq : ∀ x ∈ l, p x = true → x = a) :
    l.find? p = some a := by
  induction l with
  | nil => cases ha
  | cons b t ih =>
    by_cases hpb : p b = true
    · have hb : b = a := huniq b (List.mem_cons_self _ _) hpb
      subst hb
      simp [List.find?_cons, hpb]
    · have hpb' : p b = false := by simpa using hpb
      have hat : a ∈ t := by
        rcases List.mem_cons.mp ha with h | h
        · subst h; exact absurd hpa hpb
        · exact h
      rw [List.find?_cons, hpb']
      exact ih hat (fun x hx hpx => huniq x (List.mem_cons_of_mem _ hx) hpx)

theorem updateFirstOrder_eq_none_iff (orderId : String) (f : Order → Order)
    (l : List Order) :
    DB.updateFirstOrder orderId f l = none ↔ ∀ o ∈ l, ¬ o.orderId = orderId := by
  induction l with
  | nil => simp [DB.updateFirstOrder]
  | cons o rest ih =>
    rw [DB.updateFirstOrder]
    by_cases h : o.orderId = orderId
    · simp [h]
    · rw [if_neg h]
      cases hrec : DB.updateFirstOrder orderId f rest with
      | none =>
        rw [hrec] at ih
        simp only [eq_self_iff_true, true_iff] at ih
        constructor
        · intro _ o' ho'
          rcases List.mem_cons.mp ho' with rfl | hmem
          · exact h
          · exact ih o' hmem
        · intro _
          rfl
      | some rest' =>
        rw [hrec] at ih
        constructor
        · intro habs
          exact absurd habs (by simp)
        · intro hall
          exact absurd (ih.mpr (fun o' ho' => hall o' (List.mem_cons_of_mem _ ho'))) (by simp)

theorem updateFirstOrder_find (orderId : String) (f : Order → Order)
    (hf : ∀ o, (f o).orderId = o.orderId) :
    ∀ (l l' : List Order), DB.updateFirstOrder orderId f l = some l' →
      ∃ o₀, l.find? (fun o => o.orderId = orderId) = some o₀ ∧
        l'.find? (fun o => o.orderId = orderId) = some (f o₀) := by
  intro l
  induction l with
  | nil => intro l' h; simp [DB.updateFirstOrder] at h
  | cons o rest ih =>
    intro l' h
    by_cases ho : o.orderId = orderId
    · rw [DB.updateFirstOrder, if_pos ho] at h
      cases h
      refine ⟨o, ?_, ?_⟩
      · simp [List.find?_cons, ho]
      · simp [List.find?_cons, hf o, ho]
    · rw [DB.updateFirstOrder, if_neg ho] at h
      cases hrec : DB.updateFirstOrder orderId f rest with
      | none => rw [hrec] at h; cases h
      | some rest' =>
        rw [hrec] at h
        cases h
        obtain ⟨o₀, h₁, h₂⟩ := ih rest' hrec
        refine ⟨o₀, ?_, ?_⟩
        · simpa [List.find?_cons, ho] using h₁
        · simpa [List.find?_cons, ho] using h₂

theorem applyStatus_orderId (newStatus : String) (now : Int) (o : Order) :
    (DB.applyStatus newStatus now o).orderId = o.orderId := by
  unfold DB.applyStatus
  split
  · rfl
  · split <;> rfl

/-! ## Claim theorems -/

/-- Claim C5: the lifecycle transition from `PICKED_UP` re-checks `maxTime`
at the point of mutation: if `maxTime` has already elapsed when finalization
runs, the transition fails with a structured result and the order is not
advanced (the store is returned unchanged), independently of any earlier
selection of the order. -/
theorem finalize_picked_up_recheck_fails (order : Order) (scanner ttype : String)
    (mt now : Int) (st : Store)
    (hstatus : order.status = "PICKED_UP")
    (hmt : order.maxTime = some mt) (helapsed : mt < now) :
    CorelayLogic.finalizeTransaction order scanner ttype now st =
      (.ok { success := false
             message := "Okno zwrotu (14 dni) wygasło – sprawdź datę odbioru." }, st) := by
  unfold CorelayLogic.finalizeTransaction
  rw [if_neg (by simp [hstatus]), if_pos hstatus,
    if_pos (by rw [hmt]; simpa using helapsed)]

theorem finalize_picked_up_recheck_fails_witness :
    CorelayLogic.finalizeTransaction
      ⟨"wojtek@corelay.pl", "ORD-1002", "LPP", "PICKED_UP", some 1000, none, none, none⟩
      "LPP" "DYNAMIC_CODE" 2000 ⟨[], []⟩ =
      (.ok { success := false
             message := "Okno zwrotu (14 dni) wygasło – sprawdź datę odbioru." }, ⟨[], []⟩) :=
  finalize_picked_up_recheck_fails
    ⟨"wojtek@corelay.pl", "ORD-1002", "LPP", "PICKED_UP", some 1000, none, none, none⟩
    "LPP" "DYNAMIC_CODE" 1000 2000 ⟨[], []⟩ rfl rfl (by decide)

/-- Claim C4: a dynamic-code scan (no guest code) whose age `now - ts`
exceeds 30 seconds, or is negative by any amount (no tolerance margin on the
future-timestamp check), fails with a structured negative result and leaves
the store — hence every order — unchanged, whatever the orders' states. -/
theorem dynamic_scan_stale_or_future_fails (uid : String) (ts now : Int)
    (scanner : String) (st : Store)
    (hu : uid ≠ "") (hts : ts ≠ 0) (hsc : scanner ∈ CorelayLogic.VALID_SCANNERS)
    (hage : 30000 < now - ts ∨ now - ts < 0) :
    ∃ res : CorelayLogic.VResult,
      CorelayLogic.validateTransaction uid ts scanner none now st = (.ok res, st) ∧
      res.success = false := by
  have h1 : CorelayLogic.validateTransaction uid ts scanner none now st =
      CorelayLogic.dynamicBranch uid ts scanner now st := by
    unfold CorelayLogic.validateTransaction
    rw [if_neg hu, if_neg hts, if_neg (not_not_intro hsc)]
  rw [h1]
  unfold CorelayLogic.dynamicBranch
  rcases hage with h | h
  · rw [if_pos (by simp only [CorelayLogic.OTP_VALIDITY_SECONDS]; omega)]
    exact ⟨_, rfl, rfl⟩
  · rw [if_neg (by simp only [CorelayLogic.OTP_VALIDITY_SECONDS]; omega), if_pos h]
    exact ⟨_, rfl, rfl⟩

theorem dynamic_scan_stale_or_future_fails_witness :
    ∃ res : CorelayLogic.VResult,
      CorelayLogic.validateTransaction "wojtek@corelay.pl" 1000 "MODIVO" none 40000
        ⟨[⟨"wojtek@corelay.pl", "ORD-1001", "MODIVO", "READY_FOR_PICKUP", none, none, none, none⟩], []⟩ =
        (.ok res,
         ⟨[⟨"wojtek@corelay.pl", "ORD-1001", "MODIVO", "READY_FOR_PICKUP", none, none, none, none⟩], []⟩) ∧
      res.success = false :=
  dynamic_scan_stale_or_future_fails "wojtek@corelay.pl" 1000 40000 "MODIVO"
    ⟨[⟨"wojtek@corelay.pl", "ORD-1001", "MODIVO", "READY_FOR_PICKUP", none, none, none, none⟩], []⟩
    (by decide) (by decide) (by decide) (Or.inl (by decide))

/-- Claim C9: a dynamic-code scan whose `presentedUserId` is a non-empty
string without `'@'` does not produce a structured negative result: the
`ApiError` with status 400 thrown by `DB.getOrdersByUser` propagates out of
`validateTransaction` uncaught. -/
theorem dynamic_scan_bad_userid_throws (uid : String) (ts now : Int)
    (scanner : String) (st : Store)
    (hu : uid ≠ "") (hat : ¬ containsChar uid '@' = true)
    (hts : ts ≠ 0) (hsc : scanner ∈ CorelayLogic.VALID_SCANNERS)
    (h0 : 0 ≤ now - ts) (h30 : now - ts ≤ 30000) :
    CorelayLogic.validateTransaction uid ts scanner none now st =
      (.error ⟨"Nieprawidłowy userId – musi być email", 400⟩, st) := by
  have h1 : CorelayLogic.validateTransaction uid ts scanner none now st =
      CorelayLogic.dynamicBranch uid ts scanner now st := by
    unfold CorelayLogic.validateTransaction
    rw [if_neg hu, if_neg hts, if_neg (not_not_intro hsc)]
  rw [h1]
  unfold CorelayLogic.dynamicBranch
  rw [if_neg (by simp only [CorelayLogic.OTP_VALIDITY_SECONDS]; omega),
    if_neg (by omega)]
  have hgu : DB.getOrdersByUser uid st =
      .error ⟨"Nieprawidłowy userId – musi być email", 400⟩ := by
    unfold DB.getOrdersByUser
    rw [if_pos (Or.inr hat)]
  rw [hgu]

theorem dynamic_scan_bad_userid_throws_witness :
    CorelayLogic.validateTransaction "wojtek" 1000 "MODIVO" none 1000 ⟨[], []⟩ =
      (.error ⟨"Nieprawidłowy userId – musi być email", 400⟩, ⟨[], []⟩) :=
  dynamic_scan_bad_userid_throws "wojtek" 1000 1000 "MODIVO" ⟨[], []⟩
    (by decide) (by decide) (by decide) (by decide) (by decide) (by decide)

/-- Claim C7 (actual code behaviour at the failing input): presenting a
guest code that is not in the store does NOT yield a structured
`{success: false}` result — `DB.validateGuestCode` throws `ApiError 404`,
the guest branch catches it and rethrows an `ApiError 500`, which escapes
`validateTransaction` as a thrown fault. -/
theorem unknown_guest_code_throws_500 :
    CorelayLogic.validateTransaction "wojtek@corelay.pl" 1000 "MODIVO" (some "999999") 1000
      ⟨[], []⟩ =
      (.error ⟨"Błąd walidacji guest code – spróbuj ponownie", 500⟩, ⟨[], []⟩) := by
  rfl

/-- Claim C1: a guest credential found by `DB.validateGuestCode` is consumed
regardless of outcome — if it expired more than 1000 ms ago the call fails
but the credential is removed all the same, otherwise it succeeds and is
removed — and a second validation attempt with the same code fails. -/
theorem guest_code_consumed_on_validation (code : String) (now now2 : Int)
    (st : Store) (e : GuestCode)
    (hcode : code ≠ "")
    (hfind : st.guestCodes.find? (fun c => c.code = jsTrim code) = some e)
    (huniq : ∀ c ∈ st.guestCodes, c.code = jsTrim code → c.orderId = e.orderId) :
    (e.expiresAt < now - 1000 → ∃ err, (DB.validateGuestCode code now st).1 = .error err) ∧
    (¬ e.expiresAt < now - 1000 → (DB.validateGuestCode code now st).1 = .ok e) ∧
    (∀ c ∈ (DB.validateGuestCode code now st).2.guestCodes, ¬ c.code = jsTrim code) ∧
    (∃ err2, (DB.validateGuestCode code now2
        (DB.validateGuestCode code now st).2).1 = .error err2) := by
  have hmain : DB.validateGuestCode code now st =
      ((if e.expiresAt < now - 1000 then .error ⟨"Kod wygasł", 400⟩ else .ok e),
       DB.removeGuestCode e.orderId st) := by
    unfold DB.validateGuestCode
    rw [if_neg hcode, hfind]
    by_cases hexp : e.expiresAt < now - 1000 <;> simp [hexp]
  have hno : ∀ c ∈ (DB.removeGuestCode e.orderId st).guestCodes,
      ¬ c.code = jsTrim code := by
    intro c hc
    rcases List.mem_filter.mp hc with ⟨hcs, hcid⟩
    intro hcc
    have hcid' : ¬ c.orderId = e.orderId := by simpa using hcid
    exact hcid' (huniq c hcs hcc)
  have hsecond : ∀ n2 : Int,
      (DB.validateGuestCode code n2 (DB.removeGuestCode e.orderId st)).1 =
        .error ⟨"Kod gościnny nie istnieje", 404⟩ := by
    intro n2
    unfold DB.validateGuestCode
    rw [if_neg hcode]
    have hfn : (DB.removeGuestCode e.orderId st).guestCodes.find?
        (fun c => c.code = jsTrim code) = none := by
      apply List.find?_eq_none.mpr
      intro c hc
      simpa using hno c hc
    rw [hfn]
  refine ⟨?_, ?_, ?_, ?_⟩
  · intro hexp
    refine ⟨⟨"Kod wygasł", 400⟩, ?_⟩
    rw [hmain]
    simp [hexp]
  · intro hexp
    rw [hmain]
    simp [hexp]
  · rw [hmain]
    exact hno
  · refine ⟨⟨"Kod gościnny nie istnieje", 404⟩, ?_⟩
    rw [hmain]
    exact hsecond now2

theorem guest_code_consumed_on_validation_witness :
    ((guest1002.expiresAt < 2000 - 1000 →
      ∃ err, (DB.validateGuestCode "123456" 2000 ⟨[], [guest1002]⟩).1 = .error err) ∧
     (¬ guest1002.expiresAt < 2000 - 1000 →
      (DB.validateGuestCode "123456" 2000 ⟨[], [guest1002]⟩).1 = .ok guest1002) ∧
     (∀ c ∈ (DB.validateGuestCode "123456" 2000 ⟨[], [guest1002]⟩).2.guestCodes,
      ¬ c.code = jsTrim "123456") ∧
     (∃ err2, (DB.validateGuestCode "123456" 5000
        (DB.validateGuestCode "123456" 2000 ⟨[], [guest1002]⟩).2).1 = .error err2)) :=
  guest_code_consumed_on_validation "123456" 2000 5000 ⟨[], [guest1002]⟩ guest1002
    (by decide) (by decide) (by decide)

/-- Claim C6: `DB.addGuestCode` supersedes: on a store holding at most one
credential per order, issuing a new credential for an order succeeds,
preserves the one-credential-per-order invariant, and the prior code for
that order — even though still inside its validity window — fails a
subsequent validation. -/
theorem add_guest_code_supersedes (code2 orderId : String) (expiresAt2 : Int)
    (userId : String) (now now2 : Int) (st : Store) (e : GuestCode)
    (hinv : oneCodePerOrder st.guestCodes)
    (hmem : e ∈ st.guestCodes) (heord : e.orderId = orderId)
    (hlen : 4 ≤ code2.length) (hoid : orderId ≠ "") (huid : userId ≠ "")
    (hfresh : now < expiresAt2)
    (hdiff : code2 ≠ e.code)
    (hclean : jsTrim e.code = e.code) (hne : e.code ≠ "")
    (hwin : now2 - 1000 ≤ e.expiresAt)
    (hcodeuniq : ∀ c ∈ st.guestCodes, c.code = e.code → c.orderId = orderId) :
    ∃ st', DB.addGuestCode code2 orderId expiresAt2 userId now st = .ok st' ∧
      oneCodePerOrder st'.guestCodes ∧
      ∃ err, (DB.validateGuestCode e.code now2 st').1 = .error err := by
  have hcode2 : ¬ (code2 = "" ∨ code2.length < 4) := by
    rintro (h | h)
    · rw [h] at hlen
      simp [String.length] at hlen
    · omega
  have hmain : DB.addGuestCode code2 orderId expiresAt2 userId now st =
      .ok ⟨st.orders, (st.guestCodes.filter (fun c => ¬ c.orderId = orderId)) ++
        [⟨code2, orderId, userId, expiresAt2⟩]⟩ := by
    simp only [DB.addGuestCode, DB.removeGuestCode]
    rw [if_neg hcode2, if_neg (not_or.mpr ⟨hoid, huid⟩), if_neg (by omega)]
  refine ⟨_, hmain, ?_, ?_⟩
  · unfold oneCodePerOrder
    rw [List.pairwise_append]
    refine ⟨hinv.sublist (List.filter_sublist _), List.pairwise_singleton .., ?_⟩
    intro a ha b hb
    rcases List.mem_filter.mp ha with ⟨has, haid⟩
    rcases List.mem_singleton.mp hb with rfl
    simpa using haid
  · refine ⟨⟨"Kod gościnny nie istnieje", 404⟩, ?_⟩
    simp only [DB.validateGuestCode]
    rw [if_neg hne]
    have hfn : ((st.guestCodes.filter (fun c => ¬ c.orderId = orderId)) ++
        [(⟨code2, orderId, userId, expiresAt2⟩ : GuestCode)]).find?
          (fun c => c.code = jsTrim e.code) = none := by
      apply List.find?_eq_none.mpr
      intro c hc
      rw [hclean]
      simp only [decide_eq_true_eq]
      rcases List.mem_append.mp hc with hcf | hcn
      · rcases List.mem_filter.mp hcf with ⟨hcs, hcid⟩
        intro hcc
        have hcid' : ¬ c.orderId = orderId := by simpa using hcid
        exact hcid' (hcodeuniq c hcs hcc)
      · rcases List.mem_singleton.mp hcn with rfl
        intro hcc
        exact hdiff hcc
    rw [hfn]

theorem add_guest_code_supersedes_witness :
    ∃ st', DB.addGuestCode "654321" "ORD-1002" 7200000 "wojtek@corelay.pl" 1000
        ⟨[], [guest1002]⟩ = .ok st' ∧
      oneCodePerOrder st'.guestCodes ∧
      ∃ err, (DB.validateGuestCode guest1002.code 2000 st').1 = .error err :=
  add_guest_code_supersedes "654321" "ORD-1002" 7200000 "wojtek@corelay.pl" 1000 2000
    ⟨[], [guest1002]⟩ guest1002 (by decide) (by decide) (by decide) (by decide)
    (by decide) (by decide) (by decide) (by decide) (by decide) (by decide) (by decide)
    (by decide)

/-- Claim C8: on the guest-code path, after the credential is successfully
validated the order is resolved by the credential's `(userId, orderId)`; when
no such order exists, verification returns the structured data-integrity
failure (no exception escapes), with the credential consumed. -/
theorem guest_path_missing_order_structured_failure (uid : String) (ts now : Int)
    (scanner gc : String) (st : Store) (e : GuestCode)
    (hu : uid ≠ "") (hts : ts ≠ 0) (hsc : scanner ∈ CorelayLogic.VALID_SCANNERS)
    (hgc : ¬ jsTrim gc = "")
    (hfind : st.guestCodes.find? (fun c => c.code = jsTrim (jsTrim gc)) = some e)
    (hfresh : ¬ e.expiresAt < now - 1000)
    (heu : e.userId ≠ "") (heat : containsChar e.userId '@' = true)
    (hnoorder : ∀ o ∈ st.orders, o.userId = e.userId → ¬ o.orderId = e.orderId) :
    CorelayLogic.validateTransaction uid ts scanner (some gc) now st =
      (.ok { success := false
             message := "Zamówienie powiązane z kodem nie istnieje." },
       DB.removeGuestCode e.orderId st) := by
  have hgcne : gc ≠ "" := by
    intro h
    rw [h] at hgc
    exact hgc rfl
  have h1 : CorelayLogic.validateTransaction uid ts scanner (some gc) now st =
      CorelayLogic.guestBranch gc scanner now st := by
    unfold CorelayLogic.validateTransaction
    rw [if_neg hu, if_neg hts, if_neg (not_not_intro hsc)]
    simp only []
    rw [if_neg (not_or.mpr ⟨hgcne, hgc⟩)]
  rw [h1]
  unfold CorelayLogic.guestBranch
  have hval : DB.validateGuestCode (jsTrim gc) now st =
      (.ok e, DB.removeGuestCode e.orderId st) := by
    unfold DB.validateGuestCode
    rw [if_neg hgc, hfind]
    simp [hfresh]
  rw [hval]
  simp only []
  rw [if_neg (by simpa only [CorelayLogic.EXPIRY_TOLERANCE_MS] using hfresh)]
  have hgu : DB.getOrdersByUser e.userId (DB.removeGuestCode e.orderId st) =
      .ok (st.orders.filter (fun o => o.userId = e.userId)) := by
    unfold DB.getOrdersByUser DB.removeGuestCode
    rw [if_neg (not_or.mpr ⟨heu, not_not_intro heat⟩)]
  rw [hgu]
  simp only []
  have hfo : (st.orders.filter (fun o => o.userId = e.userId)).find?
      (fun o => o.orderId = e.orderId) = none := by
    apply List.find?_eq_none.mpr
    intro o ho
    rcases List.mem_filter.mp ho with ⟨hos, houid⟩
    simp only [decide_eq_true_eq]
    exact hnoorder o hos (by simpa using houid)
  rw [hfo]

theorem guest_path_missing_order_structured_failure_witness :
    CorelayLogic.validateTransaction "wojtek@corelay.pl" 1000 "MODIVO" (some "123456") 2000
      ⟨[order1001], [guest1002]⟩ =
      (.ok { success := false
             message := "Zamówienie powiązane z kodem nie istnieje." },
       DB.removeGuestCode guest1002.orderId ⟨[order1001], [guest1002]⟩) :=
  guest_path_missing_order_structured_failure "wojtek@corelay.pl" 1000 2000 "MODIVO"
    "123456" ⟨[order1001], [guest1002]⟩ guest1002 (by decide) (by decide) (by decide)
    (by decide) (by decide) (by decide) (by decide) (by decide) (by decide)

/-- Claim C2: a dynamic-code scan (no guest code) by the owning user at the
store of an order in `READY_FOR_PICKUP`, with age between 0 and 30 seconds
and the order being the first match among the user's orders, succeeds with
transaction type `PICKUP`, and afterwards the order (looked up by its id in
the resulting store) has status `PICKED_UP` and `maxTime` equal to the
pickup instant plus 14 days. -/
theorem ready_order_pickup_succeeds (uid : String) (ts now : Int)
    (scanner : String) (st : Store) (order : Order)
    (hu : uid ≠ "") (hat : containsChar uid '@' = true)
    (hts : ts ≠ 0) (hsc : scanner ∈ CorelayLogic.VALID_SCANNERS)
    (h0 : 0 ≤ now - ts) (h30 : now - ts ≤ 30000)
    (hmem : order ∈ st.orders) (hown : order.userId = uid)
    (hstatus : order.status = "READY_FOR_PICKUP") (hstore : order.storeId = scanner)
    (hlen : 3 ≤ order.orderId.length)
    (hfirst : ∀ o ∈ st.orders, o.userId = uid →
        CorelayLogic.orderMatches scanner now o = true → o = order) :
    ∃ res : CorelayLogic.VResult,
      (CorelayLogic.validateTransaction uid ts scanner none now st).1 = .ok res ∧
      res.success = true ∧ res.transactionType = some "PICKUP" ∧
      ((CorelayLogic.validateTransaction uid ts scanner none now st).2.orders.find?
          (fun o => o.orderId = order.orderId)).map (fun o => (o.status, o.maxTime)) =
        some ("PICKED_UP", some (now + 14 * 86400000)) := by
  have h1 : CorelayLogic.validateTransaction uid ts scanner none now st =
      CorelayLogic.dynamicBranch uid ts scanner now st := by
    unfold CorelayLogic.validateTransaction
    rw [if_neg hu, if_neg hts, if_neg (not_not_intro hsc)]
  have hgu : DB.getOrdersByUser uid st =
      .ok (st.orders.filter (fun o => o.userId = uid)) := by
    unfold DB.getOrdersByUser
    rw [if_neg (not_or.mpr ⟨hu, not_not_intro hat⟩)]
  have hmemf : order ∈ st.orders.filter (fun o => o.userId = uid) :=
    List.mem_filter.mpr ⟨hmem, by simp [hown]⟩
  have hmatch : CorelayLogic.orderMatches scanner now order = true := by
    simp [CorelayLogic.orderMatches, hstatus, hstore]
  have hfindm : (st.orders.filter (fun o => o.userId = uid)).find?
      (fun o => CorelayLogic.orderMatches scanner now o) = some order := by
    apply find_eq_some_of_unique _ hmemf hmatch
    intro x hx hpx
    rcases List.mem_filter.mp hx with ⟨hxs, hxu⟩
    exact hfirst x hxs (by simpa using hxu) hpx
  have hnonempty : (st.orders.filter (fun o => o.userId = uid)).isEmpty = false := by
    cases hl : st.orders.filter (fun o => o.userId = uid) with
    | nil => rw [hl] at hmemf; cases hmemf
    | cons a l => rfl
  obtain ⟨orders', hupd⟩ : ∃ orders',
      DB.updateFirstOrder order.orderId (DB.applyStatus "PICKED_UP" now) st.orders =
        some orders' := by
    cases hupd0 : DB.updateFirstOrder order.orderId (DB.applyStatus "PICKED_UP" now)
        st.orders with
    | none =>
      exact absurd rfl ((updateFirstOrder_eq_none_iff _ _ _).mp hupd0 order hmem)
    | some l => exact ⟨l, rfl⟩
  have hlen0 : ¬ (order.orderId = "" ∨ order.orderId.length < 3) := by
    rintro (h | h)
    · rw [h] at hlen
      simp [String.length] at hlen
    · omega
  have hus : DB.updateOrderStatus order.orderId "PICKED_UP" now st =
      .ok { st with orders := orders' } := by
    unfold DB.updateOrderStatus
    rw [if_neg hlen0, if_neg (not_not_intro (by simp [DB.allowedStatuses])), hupd]
  have hfin : CorelayLogic.finalizeTransaction order scanner "DYNAMIC_CODE" now st =
      (.ok { success := true
             transactionType := some "PICKUP"
             message := "Paczka ODEBRANA w " ++ scanner ++
               ". Status: PICKED_UP. Okno zwrotu: 14 dni od teraz."
             orderId := some order.orderId
             userId := some order.userId
             ttype := some "DYNAMIC_CODE"
             scanner := some scanner }, { st with orders := orders' }) := by
    unfold CorelayLogic.finalizeTransaction
    rw [if_pos hstatus, hus]
  have h2 : CorelayLogic.dynamicBranch uid ts scanner now st =
      CorelayLogic.finalizeTransaction order scanner "DYNAMIC_CODE" now st := by
    unfold CorelayLogic.dynamicBranch
    rw [if_neg (by simp only [CorelayLogic.OTP_VALIDITY_SECONDS]; omega),
      if_neg (by omega), hgu]
    simp only []
    rw [hnonempty, if_neg Bool.false_ne_true, hfindm]
  obtain ⟨o₀, hf0, hf1⟩ := updateFirstOrder_find order.orderId
    (DB.applyStatus "PICKED_UP" now) (applyStatus_orderId "PICKED_UP" now)
    st.orders orders' hupd
  refine ⟨{ success := true
            transactionType := some "PICKUP"
            message := "Paczka ODEBRANA w " ++ scanner ++
              ". Status: PICKED_UP. Okno zwrotu: 14 dni od teraz."
            orderId := some order.orderId
            userId := some order.userId
            ttype := some "DYNAMIC_CODE"
            scanner := some scanner }, ?_, rfl, rfl, ?_⟩
  · rw [h1, h2, hfin]
  · rw [h1, h2, hfin]
    simp only []
    rw [hf1]
    simp [DB.applyStatus]

theorem ready_order_pickup_succeeds_witness :
    ∃ res : CorelayLogic.VResult,
      (CorelayLogic.validateTransaction "wojtek@corelay.pl" 1000 "MODIVO" none 1000
        ⟨[order1001], []⟩).1 = .ok res ∧
      res.success = true ∧ res.transactionType = some "PICKUP" ∧
      ((CorelayLogic.validateTransaction "wojtek@corelay.pl" 1000 "MODIVO" none 1000
          ⟨[order1001], []⟩).2.orders.find?
          (fun o => o.orderId = order1001.orderId)).map (fun o => (o.status, o.maxTime)) =
        some ("PICKED_UP", some (1000 + 14 * 86400000)) :=
  ready_order_pickup_succeeds "wojtek@corelay.pl" 1000 1000 "MODIVO"
    ⟨[order1001], []⟩ order1001 (by decide) (by decide) (by decide) (by decide)
    (by decide) (by decide) (by decide) (by decide) (by decide) (by decide)
    (by decide) (by decide)

/-- Claim C3: a fresh dynamic-code scan by the owning user against an order
in `PICKED_UP` whose `maxTime` is strictly in the future succeeds at any
affiliated `scannerStoreId` with transaction type `RETURN` and leaves the
order `RETURNED_PENDING_REFUND`; the same scan performed at any instant at
or after `maxTime` fails and leaves the store unchanged. -/
theorem picked_up_return_succeeds_then_expires (uid : String) (ts now : Int)
    (scanner : String) (st : Store) (order : Order) (mt : Int)
    (hu : uid ≠ "") (hat : containsChar uid '@' = true)
    (hts : ts ≠ 0) (hsc : scanner ∈ CorelayLogic.VALID_SCANNERS)
    (h0 : 0 ≤ now - ts) (h30 : now - ts ≤ 30000)
    (hmem : order ∈ st.orders) (hown : order.userId = uid)
    (hstatus : order.status = "PICKED_UP") (hmt : order.maxTime = some mt)
    (hfut : now < mt)
    (hlen : 3 ≤ order.orderId.length)
    (hfirst : ∀ o ∈ st.orders, o.userId = uid →
        CorelayLogic.orderMatches scanner now o = true → o = order) :
    (∃ res : CorelayLogic.VResult,
      (CorelayLogic.validateTransaction uid ts scanner none now st).1 = .ok res ∧
      res.success = true ∧ res.transactionType = some "RETURN" ∧
      ((CorelayLogic.validateTransaction uid ts scanner none now st).2.orders.find?
          (fun o => o.orderId = order.orderId)).map (fun o => o.status) =
        some "RETURNED_PENDING_REFUND") ∧
    (∀ ts2 now2 : Int, ts2 ≠ 0 → 0 ≤ now2 - ts2 → now2 - ts2 ≤ 30000 →
      now ≤ now2 → mt ≤ now2 →
      ∃ res2 : CorelayLogic.VResult,
        CorelayLogic.validateTransaction uid ts2 scanner none now2 st =
          (.ok res2, st) ∧ res2.success = false) := by
  have hgu : DB.getOrdersByUser uid st =
      .ok (st.orders.filter (fun o => o.userId = uid)) := by
    unfold DB.getOrdersByUser
    rw [if_neg (not_or.mpr ⟨hu, not_not_intro hat⟩)]
  have hmemf : order ∈ st.orders.filter (fun o => o.userId = uid) :=
    List.mem_filter.mpr ⟨hmem, by simp [hown]⟩
  have hnonempty : (st.orders.filter (fun o => o.userId = uid)).isEmpty = false := by
    cases hl : st.orders.filter (fun o => o.userId = uid) with
    | nil => rw [hl] at hmemf; cases hmemf
    | cons a l => rfl
  have hlen0 : ¬ (order.orderId = "" ∨ order.orderId.length < 3) := by
    rintro (h | h)
    · rw [h] at hlen
      simp [String.length] at hlen
    · omega
  constructor
  · have h1 : CorelayLogic.validateTransaction uid ts scanner none now st =
        CorelayLogic.dynamicBranch uid ts scanner now st := by
      unfold CorelayLogic.validateTransaction
      rw [if_neg hu, if_neg hts, if_neg (not_not_intro hsc)]
    have hmatch : CorelayLogic.orderMatches scanner now order = true := by
      simp [CorelayLogic.orderMatches, hstatus, hmt]
      omega
    have hfindm : (st.orders.filter (fun o => o.userId = uid)).find?
        (fun o => CorelayLogic.orderMatches scanner now o) = some order := by
      apply find_eq_some_of_unique _ hmemf hmatch
      intro x hx hpx
      rcases List.mem_filter.mp hx with ⟨hxs, hxu⟩
      exact hfirst x hxs (by simpa using hxu) hpx
    obtain ⟨orders', hupd⟩ : ∃ orders',
        DB.updateFirstOrder order.orderId
          (DB.applyStatus "RETURNED_PENDING_REFUND" now) st.orders = some orders' := by
      cases hupd0 : DB.updateFirstOrder order.orderId
          (DB.applyStatus "RETURNED_PENDING_REFUND" now) st.orders with
      | none =>
        exact absurd rfl ((updateFirstOrder_eq_none_iff _ _ _).mp hupd0 order hmem)
      | some l => exact ⟨l, rfl⟩
    have hus : DB.updateOrderStatus order.orderId "RETURNED_PENDING_REFUND" now st =
        .ok { st with orders := orders' } := by
      unfold DB.updateOrderStatus
      rw [if_neg hlen0, if_neg (not_not_intro (by simp [DB.allowedStatuses])), hupd]
    have hfin : CorelayLogic.finalizeTransaction order scanner "DYNAMIC_CODE" now st =
        (.ok { success := true
               transactionType := some "RETURN"
               message := "ZWROT przyjęty w " ++ scanner ++
                 ". Status: RETURNED_PENDING_REFUND. Proces refundu (np. via TPay) zainicjowany."
               orderId := some order.orderId
               userId := some order.userId
               ttype := some "DYNAMIC_CODE"
               scanner := some scanner }, { st with orders := orders' }) := by
      unfold CorelayLogic.finalizeTransaction
      rw [if_neg (by simp [hstatus]), if_pos hstatus,
        if_neg (by rw [hmt]; simp; omega), hus]
    have h2 : CorelayLogic.dynamicBranch uid ts scanner now st =
        CorelayLogic.finalizeTransaction order scanner "DYNAMIC_CODE" now st := by
      unfold CorelayLogic.dynamicBranch
      rw [if_neg (by simp only [CorelayLogic.OTP_VALIDITY_SECONDS]; omega),
        if_neg (by omega), hgu]
      simp only []
      rw [hnonempty, if_neg Bool.false_ne_true, hfindm]
    obtain ⟨o₀, hf0, hf1⟩ := updateFirstOrder_find order.orderId
      (DB.applyStatus "RETURNED_PENDING_REFUND" now)
      (applyStatus_orderId "RETURNED_PENDING_REFUND" now) st.orders orders' hupd
    refine ⟨{ success := true
              transactionType := some "RETURN"
              message := "ZWROT przyjęty w " ++ scanner ++
                ". Status: RETURNED_PENDING_REFUND. Proces refundu (np. via TPay) zainicjowany."
              orderId := some order.orderId
              userId := some order.userId
              ttype := some "DYNAMIC_CODE"
              scanner := some scanner }, ?_, rfl, rfl, ?_⟩
    · rw [h1, h2, hfin]
    · rw [h1, h2, hfin]
      simp only []
      rw [hf1]
      simp [DB.applyStatus]
  · intro ts2 now2 hts2 h02 h302 hnn hmtn
    have h1' : CorelayLogic.validateTransaction uid ts2 scanner none now2 st =
        CorelayLogic.dynamicBranch uid ts2 scanner now2 st := by
      unfold CorelayLogic.validateTransaction
      rw [if_neg hu, if_neg hts2, if_neg (not_not_intro hsc)]
    have hfind2 : (st.orders.filter (fun o => o.userId = uid)).find?
        (fun o => CorelayLogic.orderMatches scanner now2 o) = none := by
      apply List.find?_eq_none.mpr
      intro o ho
      rcases List.mem_filter.mp ho with ⟨hos, hou⟩
      intro hmo
      simp only [CorelayLogic.orderMatches, decide_eq_true_eq] at hmo
      rcases hmo with ⟨hs, hst⟩ | ⟨hs, hmt2⟩
      · have heq : o = order := hfirst o hos (by simpa using hou)
          (by simp [CorelayLogic.orderMatches, hs, hst])
        rw [heq, hstatus] at hs
        exact absurd hs (by decide)
      · have hmatchnow : CorelayLogic.orderMatches scanner now o = true := by
          simp [CorelayLogic.orderMatches, hs]
          omega
        have heq : o = order := hfirst o hos (by simpa using hou) hmatchnow
        rw [heq, hmt] at hmt2
        simp at hmt2
        omega
    refine ⟨{ success := false
              message := "Brak pasującego zamówienia: Nie ma paczki DO ODBIORU w " ++
                scanner ++ " lub brak aktywnych zwrotów (sprawdź status w aplikacji)." },
      ?_, rfl⟩
    rw [h1']
    unfold CorelayLogic.dynamicBranch
    rw [if_neg (by simp only [CorelayLogic.OTP_VALIDITY_SECONDS]; omega),
      if_neg (by omega), hgu]
    simp only []
    rw [hnonempty, if_neg Bool.false_ne_true, hfind2]

theorem picked_up_return_succeeds_then_expires_witness :
    ((∃ res : CorelayLogic.VResult,
      (CorelayLogic.validateTransaction "wojtek@corelay.pl" 1000 "INPOST" none 1000
        ⟨[order1002], []⟩).1 = .ok res ∧
      res.success = true ∧ res.transactionType = some "RETURN" ∧
      ((CorelayLogic.validateTransaction "wojtek@corelay.pl" 1000 "INPOST" none 1000
          ⟨[order1002], []⟩).2.orders.find?
          (fun o => o.orderId = order1002.orderId)).map (fun o => o.status) =
        some "RETURNED_PENDING_REFUND") ∧
    (∀ ts2 now2 : Int, ts2 ≠ 0 → 0 ≤ now2 - ts2 → now2 - ts2 ≤ 30000 →
      1000 ≤ now2 → 1123200000 ≤ now2 →
      ∃ res2 : CorelayLogic.VResult,
        CorelayLogic.validateTransaction "wojtek@corelay.pl" ts2 "INPOST" none now2
          ⟨[order1002], []⟩ = (.ok res2, ⟨[order1002], []⟩) ∧
        res2.success = false)) :=
  picked_up_return_succeeds_then_expires "wojtek@corelay.pl" 1000 1000 "INPOST"
    ⟨[order1002], []⟩ order1002 1123200000 (by decide) (by decide) (by decide)
    (by decide) (by decide) (by decide) (by decide) (by decide) (by decide)
    (by decide) (by decide) (by decide) (by decide)

theorem trimList_eq_rdropWhile (l : List Char) :
    trimList l = List.rdropWhile isJsWhitespace (l.dropWhile isJsWhitespace) := rfl

theorem trimList_idem (l : List Char) : trimList (trimList l) = trimList l := by
  rw [trimList_eq_rdropWhile, trimList_eq_rdropWhile]
  have hmm : (l.dropWhile isJsWhitespace).dropWhile isJsWhitespace =
      l.dropWhile isJsWhitespace := List.dropWhile_idempotent _ _
  have hpre : List.rdropWhile isJsWhitespace (l.dropWhile isJsWhitespace) <+:
      l.dropWhile isJsWhitespace := List.rdropWhile_prefix _ _
  have hinner : (List.rdropWhile isJsWhitespace (l.dropWhile isJsWhitespace)).dropWhile
      isJsWhitespace = List.rdropWhile isJsWhitespace (l.dropWhile isJsWhitespace) := by
    cases hc : List.rdropWhile isJsWhitespace (l.dropWhile isJsWhitespace) with
    | nil => rfl
    | cons a t =>
      rw [hc] at hpre
      obtain ⟨r, hr⟩ := hpre
      rw [List.cons_append] at hr
      have hws : isJsWhitespace a = false := by
        by_contra hcon
        have hatrue : isJsWhitespace a = true := by simpa using hcon
        have h1 := hmm
        rw [← hr, List.dropWhile_cons_of_pos hatrue] at h1
        have h2 := (List.dropWhile_suffix (l := t ++ r) isJsWhitespace).length_le
        rw [h1] at h2
        simp at h2
      rw [List.dropWhile_cons_of_neg (by simp [hws])]
  rw [hinner, List.rdropWhile_idempotent]

theorem jsTrim_idem (s : String) : jsTrim (jsTrim s) = jsTrim s :=
  congrArg String.mk (trimList_idem s.data)

theorem jsTrim_empty : jsTrim "" = "" := rfl

theorem guestBranch_trim_invariant (s scanner : String) (now : Int) (st : Store) :
    CorelayLogic.guestBranch (jsTrim s) scanner now st =
      CorelayLogic.guestBranch s scanner now st := by
  unfold CorelayLogic.guestBranch
  rw [jsTrim_idem]

/-- Claim C10: guest-code validation is invariant under surrounding
whitespace — for every presented string `s`, verifying with guest code `s`
yields exactly the same result and store as verifying with `trim(s)`. -/
theorem validateTransaction_trim_guest_code (uid : String) (ts : Int)
    (scanner s : String) (now : Int) (st : Store) :
    CorelayLogic.validateTransaction uid ts scanner (some s) now st =
      CorelayLogic.validateTransaction uid ts scanner (some (jsTrim s)) now st := by
  unfold CorelayLogic.validateTransaction
  by_cases hu : uid = ""
  · rw [if_pos hu, if_pos hu]
  rw [if_neg hu, if_neg hu]
  by_cases hts : ts = 0
  · rw [if_pos hts, if_pos hts]
  rw [if_neg hts, if_neg hts]
  by_cases hsc : ¬ scanner ∈ CorelayLogic.VALID_SCANNERS
  · rw [if_pos hsc, if_pos hsc]
  rw [if_neg hsc, if_neg hsc]
  simp only []
  by_cases hblank : jsTrim s = ""
  · have hblank2 : jsTrim (jsTrim s) = "" := by rw [hblank]; exact jsTrim_empty
    rw [if_pos (Or.inr hblank), if_pos (Or.inr hblank2)]
  · have hs : s ≠ "" := by
      intro h
      rw [h] at hblank
      exact hblank jsTrim_empty
    have hblank2 : ¬ jsTrim (jsTrim s) = "" := by
      rw [jsTrim_idem]
      exact hblank
    rw [if_neg (not_or.mpr ⟨hs, hblank⟩), if_neg (not_or.mpr ⟨hblank, hblank2⟩)]
    exact (guestBranch_trim_invariant s scanner now st).symm
